import Mathlib

/-!
Verification of the async-python bounded-concurrency batch I/O harness.

Shallow embedding of the per-item work-function wrappers, batch runners,
result aggregation and recency views found under `src/scripts/`.  I/O
outcomes (file contents, HTTP responses, raised exceptions) are external
inputs, so each embedded wrapper takes the outcome of its I/O call as an
explicit argument; wall-clock durations are likewise threaded through as
plain values since no claim depends on real time.

Python `str` slicing is by characters, so Python strings are modelled as
Lean `String` with `String.take`; `len(s)` is `String.length`;
`len(s.encode('utf-8'))` is `String.utf8ByteSize`.
-/

/-- Embedding of the truncation idiom repeated verbatim in every script:
`content[:n] + "..." if len(content) > n else content`. -/
def py_truncate (n : Nat) (content : String) : String :=
  if content.length > n then content.take n ++ "..." else content

/-- Embedding of the slice `list(results_stack)[-count:]` taken by both
`get_recent_results` implementations when `len(results_stack) >= count`.
Python `lst[-0:]` is `lst[0:]`, the whole list; for `count >= 1` it is
the last `count` elements. -/
def py_slice_last {α : Type} (l : List α) (count : Nat) : List α :=
  if count = 0 then l else l.drop (l.length - count)

namespace AsyncFileReader

/-- `FileResult` dataclass of `async_file_reader.py`
(`filename, content, size, read_time, error=None`).
`read_time` is wall-clock seconds in the source; modelled as `Nat`. -/
structure FileResult where
  filename : String
  content : String
  size : Nat
  read_time : Nat
  error : Option String
deriving Repr, DecidableEq

/-- Outcome of the `aiofiles.open(...).read()` / `stat()` I/O inside the
`try` of `read_file_async`: either the file's text and byte size, or the
exception message `str(e)` caught by `except Exception as e`. -/
inductive ReadOutcome where
  | ok (content : String) (fileSize : Nat)
  | exc (msg : String)
deriving Repr, DecidableEq

/-- `AsyncFileReader.read_file_async` (lines 27-59): on success builds a
`FileResult` with the truncated content and the stat size; on any
exception builds one with empty content, size 0 and `error=str(e)`. -/
def read_file_async (file_path : String) (outcome : ReadOutcome) (read_time : Nat) :
    FileResult :=
  match outcome with
  | .ok content fileSize =>
      { filename := file_path
        content := py_truncate 1000 content
        size := fileSize
        read_time := read_time
        error := none }
  | .exc msg =>
      { filename := file_path
        content := ""
        size := 0
        read_time := read_time
        error := some msg }

/-- One entry of the `results` list returned by
`asyncio.gather(*tasks, return_exceptions=True)`: either the task's
`FileResult`, or (with `return_exceptions=True`) the exception object of a
task that crashed before producing a result. -/
inductive TaskOutcome where
  | ok (r : FileResult)
  | crashed (exnMsg : String)
deriving Repr, DecidableEq

/-- The result-storing loop of `read_files_from_directory` (lines 92-94):
`for result in results: if isinstance(result, FileResult):
results_stack.append(result)` — non-`FileResult` entries (exceptions
returned by `gather`) are skipped. -/
def store_results (stack : List FileResult) (results : List TaskOutcome) :
    List FileResult :=
  stack ++ results.filterMap fun o =>
    match o with
    | .ok r => some r
    | .crashed _ => none

/-- `read_files_from_directory` (lines 84-94) on an already-enumerated
batch: one `read_file_async` task per file, gathered, then stored.  When
no task crashes, each entry of `gather`'s result list is the task's
`FileResult`. -/
def read_files_from_directory (stack : List FileResult)
    (batch : List (String × ReadOutcome × Nat)) : List FileResult :=
  store_results stack
    (batch.map fun b => .ok (read_file_async b.1 b.2.1 b.2.2))

/-- The success/failure counts of `get_results_summary` (lines 130-149):
`successful_reads` filters `r.error is None`, `failed_reads` filters
`r.error is not None`, `total_size` sums sizes of successes. -/
structure Summary where
  total_files : Nat
  successful_reads : Nat
  failed_reads : Nat
  total_size_bytes : Nat
deriving Repr, DecidableEq

/-- `get_results_summary`, restricted to its count fields (the averages
are float presentation and carry no claim). -/
def get_results_summary (stack : List FileResult) : Summary :=
  { total_files := stack.length
    successful_reads := (stack.filter fun r => r.error.isNone).length
    failed_reads := (stack.filter fun r => r.error.isSome).length
    total_size_bytes :=
      ((stack.filter fun r => r.error.isNone).map fun r => r.size).sum }

/-- One dictionary of the list built by `get_recent_results`
(lines 154-163): the stored fields plus a re-truncated
`content_preview`. -/
structure RecentEntry where
  filename : String
  size : Nat
  read_time : Nat
  content_preview : String
  error : Option String
deriving Repr, DecidableEq

/-- The per-result dictionary construction inside `get_recent_results`:
`content_preview` is `r.content[:200] + "..." if len(r.content) > 200
else r.content`. -/
def recent_entry (r : FileResult) : RecentEntry :=
  { filename := r.filename
    size := r.size
    read_time := r.read_time
    content_preview := py_truncate 200 r.content
    error := r.error }

/-- `get_recent_results` (lines 151-163): take the last `count` results
(or all of them when fewer), then emit their dictionaries most recent
first (`reversed(recent)`). -/
def get_recent_results (stack : List FileResult) (count : Nat) :
    List RecentEntry :=
  let recent := if stack.length ≥ count then py_slice_last stack count else stack
  recent.reverse.map recent_entry

end AsyncFileReader

namespace AsyncUrlFetcher

/-- `UrlResult` dataclass of `async_url_fetcher.py`
(`url, status_code, response_size, fetch_time, content_preview,
error=None`). -/
structure UrlResult where
  url : String
  status_code : Nat
  response_size : Nat
  fetch_time : Nat
  content_preview : String
  error : Option String
deriving Repr, DecidableEq

/-- Outcome of the `session.get(url, ...)` call inside `fetch_url_async`:
a response (status and body text), or one of the three caught exception
families (`aiohttp.ClientError`, `asyncio.TimeoutError`, bare
`Exception`). -/
inductive FetchOutcome where
  | response (status : Nat) (content : String)
  | clientError (msg : String)
  | timeoutError
  | otherError (msg : String)
deriving Repr, DecidableEq

/-- `AsyncUrlFetcher.fetch_url_async` (lines 26-66).  On a response it
records the status, utf-8 byte size and truncated preview, and sets
`error_message = f"HTTP Error: {status_code}"` when `status_code >= 400`
— the payload fields keep their response values in that branch.  On a
caught exception the pre-initialised zeros/empties survive into the
result. -/
def fetch_url_async (url : String) (outcome : FetchOutcome) (fetch_time : Nat) :
    UrlResult :=
  match outcome with
  | .response status content =>
      { url := url
        status_code := status
        response_size := content.utf8ByteSize
        fetch_time := fetch_time
        content_preview := py_truncate 1000 content
        error := if status ≥ 400 then some ("HTTP Error: " ++ toString status) else none }
  | .clientError msg =>
      { url := url, status_code := 0, response_size := 0, fetch_time := fetch_time
        content_preview := "", error := some ("Network Error: " ++ msg) }
  | .timeoutError =>
      { url := url, status_code := 0, response_size := 0, fetch_time := fetch_time
        content_preview := "", error := some "Timeout Error" }
  | .otherError msg =>
      { url := url, status_code := 0, response_size := 0, fetch_time := fetch_time
        content_preview := "", error := some ("Unexpected Error: " ++ msg) }

/-- One dictionary of the list built by `get_recent_results`
(lines 143-153). -/
structure RecentEntry where
  url : String
  status_code : Nat
  response_size : Nat
  fetch_time : Nat
  content_preview : String
  error : Option String
deriving Repr, DecidableEq

/-- The per-result dictionary of `get_recent_results`: the preview is
re-truncated, `r.content_preview[:200] + "..." if
len(r.content_preview) > 200 else r.content_preview`. -/
def recent_entry (r : UrlResult) : RecentEntry :=
  { url := r.url
    status_code := r.status_code
    response_size := r.response_size
    fetch_time := r.fetch_time
    content_preview := py_truncate 200 r.content_preview
    error := r.error }

/-- `AsyncUrlFetcher.get_recent_results` (lines 140-153): same shape as
the file-reader aggregator's view. -/
def get_recent_results (stack : List UrlResult) (count : Nat) :
    List RecentEntry :=
  let recent := if stack.length ≥ count then py_slice_last stack count else stack
  recent.reverse.map recent_entry

end AsyncUrlFetcher

namespace ThreadedFileReader

/-- `FileResult` dataclass of `threaded_file_reader.py` (adds
`thread_id`). -/
structure FileResult where
  filename : String
  content : String
  size : Nat
  read_time : Nat
  thread_id : String
  error : Option String
deriving Repr, DecidableEq

/-- Outcome of `open(...).read()` / `stat()` inside `read_file_sync`. -/
inductive ReadOutcome where
  | ok (content : String) (fileSize : Nat)
  | exc (msg : String)
deriving Repr, DecidableEq

/-- `ThreadedFileReader.read_file_sync` (lines 30-71): success keeps the
truncated content and the stat size; any caught exception gives empty
content, size 0 and `error=str(e)`.  The thread name is diagnostic
input. -/
def read_file_sync (file_path : String) (thread_id : String)
    (outcome : ReadOutcome) (read_time : Nat) : FileResult :=
  match outcome with
  | .ok content fileSize =>
      { filename := file_path
        content := py_truncate 1000 content
        size := fileSize
        read_time := read_time
        thread_id := thread_id
        error := none }
  | .exc msg =>
      { filename := file_path
        content := ""
        size := 0
        read_time := read_time
        thread_id := thread_id
        error := some msg }

/-- The collection loop of `read_files_threaded` (lines 98-106): every
submitted future's `FileResult` is appended as it completes, so the log
gains the batch's results in some completion order — a permutation of
the per-item results. -/
def read_files_threaded (stack : List FileResult) (completed : List FileResult) :
    List FileResult :=
  stack ++ completed

end ThreadedFileReader

namespace ThreadedUrlFetcher

/-- `UrlResult` dataclass of `threaded_url_fetcher.py` (adds
`thread_id`). -/
structure UrlResult where
  url : String
  status_code : Nat
  response_size : Nat
  fetch_time : Nat
  content_preview : String
  thread_id : String
  error : Option String
deriving Repr, DecidableEq

/-- Outcome of `requests.get(url, timeout=10)` inside `fetch_url_sync`:
a response, or one of the two caught exception families
(`requests.exceptions.RequestException`, bare `Exception`). -/
inductive FetchOutcome where
  | response (status : Nat) (content : String)
  | requestExc (msg : String)
  | otherError (msg : String)
deriving Repr, DecidableEq

/-- `ThreadedUrlFetcher.fetch_url_sync` (lines 28-70): like the async
fetcher, an HTTP status `>= 400` sets the error message while the
payload fields keep their response values; caught exceptions leave the
pre-initialised zeros/empties. -/
def fetch_url_sync (url : String) (thread_id : String)
    (outcome : FetchOutcome) (fetch_time : Nat) : UrlResult :=
  match outcome with
  | .response status content =>
      { url := url
        status_code := status
        response_size := content.utf8ByteSize
        fetch_time := fetch_time
        content_preview := py_truncate 1000 content
        thread_id := thread_id
        error := if status ≥ 400 then some ("HTTP Error: " ++ toString status) else none }
  | .requestExc msg =>
      { url := url, status_code := 0, response_size := 0, fetch_time := fetch_time
        content_preview := "", thread_id := thread_id
        error := some ("Network Error: " ++ msg) }
  | .otherError msg =>
      { url := url, status_code := 0, response_size := 0, fetch_time := fetch_time
        content_preview := "", thread_id := thread_id
        error := some ("Unexpected Error: " ++ msg) }

end ThreadedUrlFetcher

namespace MultiprocessFileReader

/-- `FileResult` dataclass of `multiprocess_file_reader.py` (adds
`process_id`). -/
structure FileResult where
  filename : String
  content : String
  size : Nat
  read_time : Nat
  process_id : Nat
  error : Option String
deriving Repr, DecidableEq

/-- Outcome of `open(...).read()` / `stat()` inside `read_file_worker`. -/
inductive ReadOutcome where
  | ok (content : String) (fileSize : Nat)
  | exc (msg : String)
deriving Repr, DecidableEq

/-- Python `len(content.split())`: split on whitespace runs, empties
dropped. -/
def py_word_count (content : String) : Nat :=
  ((content.split fun c => c.isWhitespace).filter fun w => w ≠ "").length

/-- `MultiprocessFileReader.read_file_worker` (lines 26-66): success
prepends the word/char-count banner to the content before truncation;
any caught exception gives empty content, size 0 and `error=str(e)`. -/
def read_file_worker (file_path : String) (process_id : Nat)
    (outcome : ReadOutcome) (read_time : Nat) : FileResult :=
  match outcome with
  | .ok content fileSize =>
      { filename := file_path
        content := py_truncate 1000
          ("[Words: " ++ toString (py_word_count content) ++ ", Chars: "
            ++ toString content.length ++ "] " ++ content)
        size := fileSize
        read_time := read_time
        process_id := process_id
        error := none }
  | .exc msg =>
      { filename := file_path
        content := ""
        size := 0
        read_time := read_time
        process_id := process_id
        error := some msg }

/-- `read_files_multiprocess` (lines 92-98):
`results = pool.map(self.read_file_worker, files_to_read)` then every
result is appended to the stack in sequence.  `multiprocessing.Pool.map`
is the blocking parallel map that returns its results in input order, so
it is embedded as `List.map` over the batch. -/
def read_files_multiprocess (stack : List FileResult)
    (batch : List (String × Nat × ReadOutcome × Nat)) : List FileResult :=
  stack ++ batch.map fun b => read_file_worker b.1 b.2.1 b.2.2.1 b.2.2.2

end MultiprocessFileReader

namespace MultiprocessUrlFetcher

/-- `UrlResult` dataclass of `multiprocess_url_fetcher.py` (adds
`process_id`). -/
structure UrlResult where
  url : String
  status_code : Nat
  response_size : Nat
  fetch_time : Nat
  content_preview : String
  process_id : Nat
  error : Option String
deriving Repr, DecidableEq

/-- Outcome of `requests.get(url, timeout=10)` inside
`fetch_url_worker`. -/
inductive FetchOutcome where
  | response (status : Nat) (content : String)
  | requestExc (msg : String)
  | otherError (msg : String)
deriving Repr, DecidableEq

/-- `MultiprocessUrlFetcher.fetch_url_worker` (lines 27-70): the response
body is lower-cased (`processed_content = content.lower()`), sized and
truncated; HTTP status `>= 400` sets the error with payload fields kept;
caught exceptions leave the pre-initialised zeros/empties. -/
def fetch_url_worker (url : String) (process_id : Nat)
    (outcome : FetchOutcome) (fetch_time : Nat) : UrlResult :=
  match outcome with
  | .response status content =>
      { url := url
        status_code := status
        response_size := content.toLower.utf8ByteSize
        fetch_time := fetch_time
        content_preview := py_truncate 1000 content.toLower
        process_id := process_id
        error := if status ≥ 400 then some ("HTTP Error: " ++ toString status) else none }
  | .requestExc msg =>
      { url := url, status_code := 0, response_size := 0, fetch_time := fetch_time
        content_preview := "", process_id := process_id
        error := some ("Network Error: " ++ msg) }
  | .otherError msg =>
      { url := url, status_code := 0, response_size := 0, fetch_time := fetch_time
        content_preview := "", process_id := process_id
        error := some ("Unexpected Error: " ++ msg) }

/-- `fetch_urls_multiprocess` (lines 83-89):
`results = pool.map(self.fetch_url_worker, urls)` (input-order parallel
map) then appended in sequence. -/
def fetch_urls_multiprocess (stack : List UrlResult)
    (batch : List (String × Nat × FetchOutcome × Nat)) : List UrlResult :=
  stack ++ batch.map fun b => fetch_url_worker b.1 b.2.1 b.2.2.1 b.2.2.2

end MultiprocessUrlFetcher

namespace HybridReader

/-- `FileResult` dataclass of `hybrid_async_threaded_reader.py` (adds
`thread_id` and the `worker_type` tag, `'async'` or `'thread'`). -/
structure FileResult where
  filename : String
  content : String
  size : Nat
  read_time : Nat
  thread_id : String
  worker_type : String
  error : Option String
deriving Repr, DecidableEq

/-- A discovered file as routed by `read_files_hybrid`: its path and the
`f.stat().st_size` consulted by the routing predicate. -/
structure FileEntry where
  path : String
  st_size : Nat
deriving Repr, DecidableEq

/-- The routing split of `read_files_hybrid` (lines 145-146):
`async_files = [f for f in files_to_read if f.stat().st_size < 10000]`. -/
def async_files (files_to_read : List FileEntry) : List FileEntry :=
  files_to_read.filter fun f => f.st_size < 10000

/-- `thread_files = [f for f in files_to_read if f.stat().st_size >=
10000]` (line 146). -/
def thread_files (files_to_read : List FileEntry) : List FileEntry :=
  files_to_read.filter fun f => f.st_size ≥ 10000

/-- One entry of the `results` list returned by
`asyncio.gather(*all_tasks, return_exceptions=True)` in
`read_files_hybrid` (line 164): a task's `FileResult`, or the exception
object of a task that crashed before producing one. -/
inductive TaskOutcome where
  | ok (r : FileResult)
  | crashed (exnMsg : String)
deriving Repr, DecidableEq

/-- The result-storing loop of `read_files_hybrid` (lines 167-169):
`for result in results: if isinstance(result, FileResult):
results_stack.append(result)` — exception entries are skipped. -/
def store_results (stack : List FileResult) (results : List TaskOutcome) :
    List FileResult :=
  stack ++ results.filterMap fun o =>
    match o with
    | .ok r => some r
    | .crashed _ => none

end HybridReader

namespace HybridFetcher

/-- The routing split of `fetch_urls_hybrid`
(`hybrid_async_threaded_fetcher.py` line 137):
`async_urls = [url for i, url in enumerate(urls) if i % 2 == 0]`. -/
def async_urls (urls : List String) : List String :=
  (urls.enum.filter fun p => p.1 % 2 = 0).map Prod.snd

/-- `thread_urls = [url for i, url in enumerate(urls) if i % 2 != 0]`
(line 138). -/
def thread_urls (urls : List String) : List String :=
  (urls.enum.filter fun p => p.1 % 2 ≠ 0).map Prod.snd

end HybridFetcher

namespace AdmissionGate

/-- State of one strategy run under its admission primitive —
`asyncio.Semaphore(max_concurrent_files)` held around the whole body of
`AsyncFileReader.read_file_async` (line 29), or the
`ThreadPoolExecutor(max_workers=...)` of `read_files_threaded`
(line 98): `pending` items not yet admitted, `running` items currently
holding a slot (in-flight work functions), `finished` items that have
released their slot. -/
structure GateState where
  pending : Nat
  running : Nat
  finished : Nat
deriving Repr, DecidableEq

/-- Atomic scheduler transitions of the gated run.  `acquire` is the
semaphore acquire (or a pool worker picking up a task): it fires only
while fewer than `cap` items hold slots.  `finish` is the scoped release
on completion of the work function, success or failure (`async with` /
pool-worker return). -/
inductive Step (cap : Nat) : GateState → GateState → Prop where
  | acquire (s : GateState) : 0 < s.pending → s.running < cap →
      Step cap s ⟨s.pending - 1, s.running + 1, s.finished⟩
  | finish (s : GateState) : 0 < s.running →
      Step cap s ⟨s.pending, s.running - 1, s.finished + 1⟩

/-- States reachable during a batch of `n` work items run under
admission cap `cap`: the batch starts with all items pending, none
admitted. -/
inductive Reachable (cap n : Nat) : GateState → Prop where
  | init : Reachable cap n ⟨n, 0, 0⟩
  | next {s t : GateState} : Reachable cap n s → Step cap s t → Reachable cap n t

end AdmissionGate

/-!  ## Claims  -/

/-- C1: the claim that a `WorkResult` never carries both a non-null error
and a non-empty payload fails on the URL fetchers: a response with HTTP
status 404 and body `"Not Found"` yields a result whose error is
`"HTTP Error: 404"` while `response_size = 9` and the preview is the
body — neither disjunct of the claimed invariant holds. -/
theorem C1_counterexample :
    ¬ ((AsyncUrlFetcher.fetch_url_async "u" (.response 404 "Not Found") 0).error = none ∨
       ((AsyncUrlFetcher.fetch_url_async "u" (.response 404 "Not Found") 0).response_size = 0 ∧
        (AsyncUrlFetcher.fetch_url_async "u" (.response 404 "Not Found") 0).content_preview = "")) := by
  decide

/-- C1 (amended): for every file-reader result, the error is null or the
result has size 0 and empty payload; for every URL-fetcher result one of
three holds: null error, or size 0 with empty preview (the caught
exception branches), or a non-null `"HTTP Error: s"` error with status
`s ≥ 400` — the one case in which an error coexists with the response's
payload and size. -/
theorem C1_error_payload_invariant :
    (∀ p oc t, (AsyncFileReader.read_file_async p oc t).error = none ∨
       ((AsyncFileReader.read_file_async p oc t).size = 0 ∧
        (AsyncFileReader.read_file_async p oc t).content = "")) ∧
    (∀ p tid oc t, (ThreadedFileReader.read_file_sync p tid oc t).error = none ∨
       ((ThreadedFileReader.read_file_sync p tid oc t).size = 0 ∧
        (ThreadedFileReader.read_file_sync p tid oc t).content = "")) ∧
    (∀ p pid oc t, (MultiprocessFileReader.read_file_worker p pid oc t).error = none ∨
       ((MultiprocessFileReader.read_file_worker p pid oc t).size = 0 ∧
        (MultiprocessFileReader.read_file_worker p pid oc t).content = "")) ∧
    (∀ u oc t, (AsyncUrlFetcher.fetch_url_async u oc t).error = none ∨
       ((AsyncUrlFetcher.fetch_url_async u oc t).response_size = 0 ∧
        (AsyncUrlFetcher.fetch_url_async u oc t).content_preview = "") ∨
       (∃ s, 400 ≤ s ∧ (AsyncUrlFetcher.fetch_url_async u oc t).status_code = s ∧
         (AsyncUrlFetcher.fetch_url_async u oc t).error = some ("HTTP Error: " ++ toString s))) ∧
    (∀ u tid oc t, (ThreadedUrlFetcher.fetch_url_sync u tid oc t).error = none ∨
       ((ThreadedUrlFetcher.fetch_url_sync u tid oc t).response_size = 0 ∧
        (ThreadedUrlFetcher.fetch_url_sync u tid oc t).content_preview = "") ∨
       (∃ s, 400 ≤ s ∧ (ThreadedUrlFetcher.fetch_url_sync u tid oc t).status_code = s ∧
         (ThreadedUrlFetcher.fetch_url_sync u tid oc t).error = some ("HTTP Error: " ++ toString s))) ∧
    (∀ u pid oc t, (MultiprocessUrlFetcher.fetch_url_worker u pid oc t).error = none ∨
       ((MultiprocessUrlFetcher.fetch_url_worker u pid oc t).response_size = 0 ∧
        (MultiprocessUrlFetcher.fetch_url_worker u pid oc t).content_preview = "") ∨
       (∃ s, 400 ≤ s ∧ (MultiprocessUrlFetcher.fetch_url_worker u pid oc t).status_code = s ∧
         (MultiprocessUrlFetcher.fetch_url_worker u pid oc t).error = some ("HTTP Error: " ++ toString s))) := by
  refine ⟨?_, ?_, ?_, ?_, ?_, ?_⟩
  · intro p oc t; cases oc <;> simp [AsyncFileReader.read_file_async]
  · intro p tid oc t; cases oc <;> simp [ThreadedFileReader.read_file_sync]
  · intro p pid oc t; cases oc <;> simp [MultiprocessFileReader.read_file_worker]
  · intro u oc t
    cases oc with
    | response s c =>
      by_cases h : 400 ≤ s
      · exact Or.inr (Or.inr ⟨s, h, by simp [AsyncUrlFetcher.fetch_url_async, ge_iff_le, h]⟩)
      · exact Or.inl (by simp [AsyncUrlFetcher.fetch_url_async, ge_iff_le, h])
    | clientError m => exact Or.inr (Or.inl (by simp [AsyncUrlFetcher.fetch_url_async]))
    | timeoutError => exact Or.inr (Or.inl (by simp [AsyncUrlFetcher.fetch_url_async]))
    | otherError m => exact Or.inr (Or.inl (by simp [AsyncUrlFetcher.fetch_url_async]))
  · intro u tid oc t
    cases oc with
    | response s c =>
      by_cases h : 400 ≤ s
      · exact Or.inr (Or.inr ⟨s, h, by simp [ThreadedUrlFetcher.fetch_url_sync, ge_iff_le, h]⟩)
      · exact Or.inl (by simp [ThreadedUrlFetcher.fetch_url_sync, ge_iff_le, h])
    | requestExc m => exact Or.inr (Or.inl (by simp [ThreadedUrlFetcher.fetch_url_sync]))
    | otherError m => exact Or.inr (Or.inl (by simp [ThreadedUrlFetcher.fetch_url_sync]))
  · intro u pid oc t
    cases oc with
    | response s c =>
      by_cases h : 400 ≤ s
      · exact Or.inr (Or.inr ⟨s, h, by simp [MultiprocessUrlFetcher.fetch_url_worker, ge_iff_le, h]⟩)
      · exact Or.inl (by simp [MultiprocessUrlFetcher.fetch_url_worker, ge_iff_le, h])
    | requestExc m => exact Or.inr (Or.inl (by simp [MultiprocessUrlFetcher.fetch_url_worker]))
    | otherError m => exact Or.inr (Or.inl (by simp [MultiprocessUrlFetcher.fetch_url_worker]))

/-- C7: the stored preview of a payload longer than `truncate_length`
(1000) is its first 1000 characters followed by the `"..."` marker, and a
payload of at most 1000 characters is stored exactly; both the file
reader's `content` and the URL fetcher's `content_preview` are produced
by this truncation. -/
theorem C7_truncation_1000 :
    (∀ content : String, 1000 < content.length →
       py_truncate 1000 content = content.take 1000 ++ "...") ∧
    (∀ content : String, content.length ≤ 1000 →
       py_truncate 1000 content = content) ∧
    (∀ p c sz t, (AsyncFileReader.read_file_async p (.ok c sz) t).content =
       py_truncate 1000 c) ∧
    (∀ u s c t, (AsyncUrlFetcher.fetch_url_async u (.response s c) t).content_preview =
       py_truncate 1000 c) := by
  refine ⟨?_, ?_, ?_, ?_⟩
  · intro c h; unfold py_truncate; rw [if_pos h]
  · intro c h; unfold py_truncate; rw [if_neg (by omega)]
  · intro p c sz t; rfl
  · intro u s c t; rfl

set_option maxRecDepth 8192 in
/-- Witness for C7 at a 1001-character payload and at `"abc"`. -/
theorem C7_truncation_1000_witness :
    (1000 < (String.mk (List.replicate 1001 'a')).length ∧
     py_truncate 1000 (String.mk (List.replicate 1001 'a')) =
       (String.mk (List.replicate 1001 'a')).take 1000 ++ "...") ∧
    (("abc" : String).length ≤ 1000 ∧ py_truncate 1000 "abc" = "abc") :=
  ⟨⟨by decide, C7_truncation_1000.1 _ (by decide)⟩,
   ⟨by decide, C7_truncation_1000.2.1 "abc" (by decide)⟩⟩

/-- The gather-filter loop applied to a batch in which every task
produced its `FileResult` keeps exactly those results, in task order. -/
theorem store_results_all_ok {β : Type} (stack : List AsyncFileReader.FileResult)
    (f : β → AsyncFileReader.FileResult) (l : List β) :
    AsyncFileReader.store_results stack (l.map fun b => .ok (f b)) =
      stack ++ l.map f := by
  unfold AsyncFileReader.store_results
  congr 1
  induction l with
  | nil => rfl
  | cons a tl ih => simpa using ih

/-- The slice kept by `get_recent_results`, reversed, is the first
`count` elements of the reversed log — for `count ≥ 1`. -/
theorem py_slice_reverse_take {α : Type} (l : List α) (count : Nat) (h : 1 ≤ count) :
    (if l.length ≥ count then py_slice_last l count else l).reverse =
      l.reverse.take count := by
  by_cases hlen : l.length ≥ count
  · rw [if_pos hlen]
    unfold py_slice_last
    rw [if_neg (by omega), List.reverse_drop]
    congr 1
    omega
  · rw [if_neg hlen]
    exact (List.take_of_length_le (by simp only [List.length_reverse]; omega)).symm

/-- C2: the claim that `recent(0)` returns the empty sequence fails: on a
log holding one result, `recent(0)` returns that result (Python
`lst[-0:]` is the whole list), not an empty sequence. -/
theorem C2_counterexample :
    ¬ ((AsyncFileReader.get_recent_results
          [{ filename := "f", content := "c", size := 1, read_time := 0, error := none }]
          0).length =
        min 0 [({ filename := "f", content := "c", size := 1, read_time := 0,
                  error := none } : AsyncFileReader.FileResult)].length) := by
  decide

/-- C2 (amended): for `n ≥ 1`, `recent(n)` returns the last `min(n, L)`
results most-recently-completed first (the first `n` entries of the
reversed log); `recent(0)` returns the entire log reversed. Holds for
both aggregators. -/
theorem C2_recent_results :
    (∀ (stack : List AsyncFileReader.FileResult) (count : Nat), 1 ≤ count →
       AsyncFileReader.get_recent_results stack count =
         (stack.reverse.take count).map AsyncFileReader.recent_entry ∧
       (AsyncFileReader.get_recent_results stack count).length = min count stack.length) ∧
    (∀ stack : List AsyncFileReader.FileResult,
       AsyncFileReader.get_recent_results stack 0 =
         stack.reverse.map AsyncFileReader.recent_entry) ∧
    (∀ (stack : List AsyncUrlFetcher.UrlResult) (count : Nat), 1 ≤ count →
       AsyncUrlFetcher.get_recent_results stack count =
         (stack.reverse.take count).map AsyncUrlFetcher.recent_entry ∧
       (AsyncUrlFetcher.get_recent_results stack count).length = min count stack.length) ∧
    (∀ stack : List AsyncUrlFetcher.UrlResult,
       AsyncUrlFetcher.get_recent_results stack 0 =
         stack.reverse.map AsyncUrlFetcher.recent_entry) := by
  refine ⟨?_, ?_, ?_, ?_⟩
  · intro stack count h
    have he : AsyncFileReader.get_recent_results stack count =
        (stack.reverse.take count).map AsyncFileReader.recent_entry := by
      simp only [AsyncFileReader.get_recent_results]
      rw [py_slice_reverse_take stack count h]
    refine ⟨he, ?_⟩
    rw [he]
    simp [List.length_take]
  · intro stack
    simp [AsyncFileReader.get_recent_results, py_slice_last, Nat.zero_le]
  · intro stack count h
    have he : AsyncUrlFetcher.get_recent_results stack count =
        (stack.reverse.take count).map AsyncUrlFetcher.recent_entry := by
      simp only [AsyncUrlFetcher.get_recent_results]
      rw [py_slice_reverse_take stack count h]
    refine ⟨he, ?_⟩
    rw [he]
    simp [List.length_take]
  · intro stack
    simp [AsyncUrlFetcher.get_recent_results, py_slice_last, Nat.zero_le]

/-- Concrete results used to instantiate hypothesised theorems. -/
def sampleResult1 : AsyncFileReader.FileResult :=
  { filename := "f1", content := "c1", size := 1, read_time := 0, error := none }

/-- A second concrete result, completed after `sampleResult1`. -/
def sampleResult2 : AsyncFileReader.FileResult :=
  { filename := "f2", content := "c2", size := 2, read_time := 0, error := none }

/-- Witness for C2 on a two-entry log with `n = 1`. -/
theorem C2_recent_results_witness :
    AsyncFileReader.get_recent_results [sampleResult1, sampleResult2] 1 =
      ([sampleResult1, sampleResult2].reverse.take 1).map AsyncFileReader.recent_entry ∧
    (AsyncFileReader.get_recent_results [sampleResult1, sampleResult2] 1).length =
      min 1 [sampleResult1, sampleResult2].length :=
  C2_recent_results.1 [sampleResult1, sampleResult2] 1 (by decide)

/-- C3: with no execution-unit fatal error (every gathered entry is a
task's `FileResult`), the log grows by exactly one result per submitted
work item — starting from an empty log its final length is the batch
size; the thread-pool collection loop appends the per-item results in
completion order (any permutation), with the same count. -/
theorem C3_batch_completeness :
    (∀ (batch : List (String × AsyncFileReader.ReadOutcome × Nat)),
       (AsyncFileReader.read_files_from_directory [] batch).length = batch.length) ∧
    (∀ (stack : List AsyncFileReader.FileResult)
       (batch : List (String × AsyncFileReader.ReadOutcome × Nat)),
       (AsyncFileReader.read_files_from_directory stack batch).length =
         stack.length + batch.length) ∧
    (∀ (items : List (String × String × ThreadedFileReader.ReadOutcome × Nat))
       (completed : List ThreadedFileReader.FileResult),
       completed.Perm (items.map fun i =>
         ThreadedFileReader.read_file_sync i.1 i.2.1 i.2.2.1 i.2.2.2) →
       (ThreadedFileReader.read_files_threaded [] completed).length = items.length) := by
  have key : ∀ (stack : List AsyncFileReader.FileResult)
      (batch : List (String × AsyncFileReader.ReadOutcome × Nat)),
      (AsyncFileReader.read_files_from_directory stack batch).length =
        stack.length + batch.length := by
    intro stack batch
    simp [AsyncFileReader.read_files_from_directory, store_results_all_ok]
  refine ⟨fun batch => by simpa using key [] batch, key, ?_⟩
  intro items completed h
  have hlen := h.length_eq
  simp only [List.length_map] at hlen
  simpa [ThreadedFileReader.read_files_threaded] using hlen

/-- A concrete threaded work item for the C3 witness. -/
def sampleThreadItem : String × String × ThreadedFileReader.ReadOutcome × Nat :=
  ("a.txt", "ThreadPoolExecutor-0_0", .ok "x" 1, 0)

/-- Witness for C3's thread-pool conjunct, with completion order equal to
submission order. -/
theorem C3_batch_completeness_witness :
    (ThreadedFileReader.read_files_threaded []
       ([sampleThreadItem].map fun i =>
         ThreadedFileReader.read_file_sync i.1 i.2.1 i.2.2.1 i.2.2.2)).length =
      [sampleThreadItem].length :=
  C3_batch_completeness.2.2 [sampleThreadItem] _ (List.Perm.refl _)

/-- C4: a work function that raises is converted, at the per-item
boundary, into a result with that exception's message and size 0; each
position of the batch log depends only on its own item, so the spec's
three-item scenario (item 2 raises) yields a length-3 log with 2
successes, 1 failure, and the middle result carrying the error. -/
theorem C4_per_item_error_isolation :
    (∀ p m t, (AsyncFileReader.read_file_async p (.exc m) t).error = some m ∧
       (AsyncFileReader.read_file_async p (.exc m) t).size = 0 ∧
       (AsyncFileReader.read_file_async p (.exc m) t).content = "") ∧
    (∀ p tid m t, (ThreadedFileReader.read_file_sync p tid (.exc m) t).error = some m ∧
       (ThreadedFileReader.read_file_sync p tid (.exc m) t).size = 0 ∧
       (ThreadedFileReader.read_file_sync p tid (.exc m) t).content = "") ∧
    (∀ (batch : List (String × AsyncFileReader.ReadOutcome × Nat)) (i : Nat),
       (AsyncFileReader.read_files_from_directory [] batch)[i]? =
         (batch[i]?).map fun b => AsyncFileReader.read_file_async b.1 b.2.1 b.2.2) ∧
    (∀ p1 c1 s1 t1 p2 m t2 p3 c3 s3 t3,
       (AsyncFileReader.read_files_from_directory []
          [(p1, .ok c1 s1, t1), (p2, .exc m, t2), (p3, .ok c3 s3, t3)]).length = 3 ∧
       (AsyncFileReader.get_results_summary
          (AsyncFileReader.read_files_from_directory []
            [(p1, .ok c1 s1, t1), (p2, .exc m, t2), (p3, .ok c3 s3, t3)])).successful_reads = 2 ∧
       (AsyncFileReader.get_results_summary
          (AsyncFileReader.read_files_from_directory []
            [(p1, .ok c1 s1, t1), (p2, .exc m, t2), (p3, .ok c3 s3, t3)])).failed_reads = 1 ∧
       (AsyncFileReader.read_files_from_directory []
          [(p1, .ok c1 s1, t1), (p2, .exc m, t2), (p3, .ok c3 s3, t3)])[1]? =
         some (AsyncFileReader.read_file_async p2 (.exc m) t2)) := by
  refine ⟨fun p m t => ⟨rfl, rfl, rfl⟩, fun p tid m t => ⟨rfl, rfl, rfl⟩, ?_, ?_⟩
  · intro batch i
    simp [AsyncFileReader.read_files_from_directory, store_results_all_ok,
      List.getElem?_map]
  · intro p1 c1 s1 t1 p2 m t2 p3 c3 s3 t3
    refine ⟨rfl, ?_, ?_, rfl⟩ <;>
      simp [AsyncFileReader.get_results_summary, AsyncFileReader.read_files_from_directory,
        AsyncFileReader.store_results, AsyncFileReader.read_file_async]

/-- C5: the process-pool strategies collect their results through the
input-order parallel map, so for every batch the result sequence lists
the submitted identifiers in exactly the submission order, for both the
file-reading and URL-fetching variants. -/
theorem C5_process_pool_order :
    (∀ (batch : List (String × Nat × MultiprocessFileReader.ReadOutcome × Nat)),
       (MultiprocessFileReader.read_files_multiprocess [] batch).length = batch.length ∧
       (MultiprocessFileReader.read_files_multiprocess [] batch).map
           (fun r => r.filename) = batch.map (fun b => b.1)) ∧
    (∀ (batch : List (String × Nat × MultiprocessUrlFetcher.FetchOutcome × Nat)),
       (MultiprocessUrlFetcher.fetch_urls_multiprocess [] batch).length = batch.length ∧
       (MultiprocessUrlFetcher.fetch_urls_multiprocess [] batch).map
           (fun r => r.url) = batch.map (fun b => b.1)) := by
  constructor
  · intro batch
    refine ⟨by simp [MultiprocessFileReader.read_files_multiprocess], ?_⟩
    induction batch with
    | nil => rfl
    | cons b tl ih =>
      obtain ⟨p, pid, oc, t⟩ := b
      cases oc <;>
        simpa [MultiprocessFileReader.read_files_multiprocess,
          MultiprocessFileReader.read_file_worker] using ih
  · intro batch
    refine ⟨by simp [MultiprocessUrlFetcher.fetch_urls_multiprocess], ?_⟩
    induction batch with
    | nil => rfl
    | cons b tl ih =>
      obtain ⟨u, pid, oc, t⟩ := b
      cases oc <;>
        simpa [MultiprocessUrlFetcher.fetch_urls_multiprocess,
          MultiprocessUrlFetcher.fetch_url_worker] using ih

/-- C6: evaluating the gather-filter storing loop on a batch of two
execution units of which the second crashed before producing a
`FileResult`: the surviving result is kept, the crash leaves no trace in
the log (length 1, not 2), and — the function's whole output being the
log — no batch-level failure is reported; the hybrid reader's identical
loop likewise absorbs a crashed unit into an empty log. -/
theorem C6_crashed_unit_dropped :
    (AsyncFileReader.store_results []
        [.ok (AsyncFileReader.read_file_async "a.txt" (.ok "hello" 5) 1),
         .crashed "RuntimeError"]).length = 1 ∧
    AsyncFileReader.store_results []
        [.ok (AsyncFileReader.read_file_async "a.txt" (.ok "hello" 5) 1),
         .crashed "RuntimeError"] =
      [AsyncFileReader.read_file_async "a.txt" (.ok "hello" 5) 1] ∧
    HybridReader.store_results [] [.crashed "RuntimeError"] = [] :=
  ⟨rfl, rfl, rfl⟩

/-- C8: both hybrid routing predicates partition the work items: the two
file subsets together are the whole discovered set, a file goes
cooperative exactly when its size is strictly below 10000 and to the
thread pool exactly when at or above it (so sizes 9999 / 10000 split at
the boundary, and no file is in both subsets); the URL split likewise
covers everything, routing even indices cooperative and odd indices to
the thread pool. -/
theorem C8_hybrid_routing :
    (∀ files : List HybridReader.FileEntry,
       List.Perm (HybridReader.async_files files ++ HybridReader.thread_files files) files) ∧
    (∀ (files : List HybridReader.FileEntry) (f : HybridReader.FileEntry),
       f ∈ HybridReader.async_files files → f.st_size < 10000) ∧
    (∀ (files : List HybridReader.FileEntry) (f : HybridReader.FileEntry),
       f ∈ HybridReader.thread_files files → 10000 ≤ f.st_size) ∧
    (∀ (files : List HybridReader.FileEntry) (f : HybridReader.FileEntry),
       ¬ (f ∈ HybridReader.async_files files ∧ f ∈ HybridReader.thread_files files)) ∧
    (∀ p1 p2, HybridReader.async_files [⟨p1, 9999⟩, ⟨p2, 10000⟩] = [⟨p1, 9999⟩] ∧
       HybridReader.thread_files [⟨p1, 9999⟩, ⟨p2, 10000⟩] = [⟨p2, 10000⟩]) ∧
    (∀ urls : List String,
       List.Perm (HybridFetcher.async_urls urls ++ HybridFetcher.thread_urls urls) urls) ∧
    (∀ (urls : List String) (i : Nat) (h : i < urls.length),
       (i % 2 = 0 → urls[i] ∈ HybridFetcher.async_urls urls) ∧
       (i % 2 ≠ 0 → urls[i] ∈ HybridFetcher.thread_urls urls)) := by
  have hsize : ∀ files : List HybridReader.FileEntry,
      HybridReader.thread_files files =
        files.filter fun f => !decide (f.st_size < 10000) := by
    intro files
    apply List.filter_congr
    intro f _
    rw [← decide_not, decide_eq_decide]
    exact Nat.not_lt.symm
  refine ⟨?_, ?_, ?_, ?_, ?_, ?_, ?_⟩
  · intro files
    rw [hsize]
    exact List.filter_append_perm _ files
  · intro files f hf
    simpa using (List.mem_filter.mp hf).2
  · intro files f hf
    have := (List.mem_filter.mp hf).2
    simpa [Nat.not_lt] using this
  · rintro files f ⟨ha, ht⟩
    have h1 : f.st_size < 10000 := by simpa using (List.mem_filter.mp ha).2
    have h2 := (List.mem_filter.mp ht).2
    simp only [ge_iff_le, decide_eq_true_eq] at h2
    omega
  · intro p1 p2
    exact ⟨rfl, rfl⟩
  · intro urls
    have hco : HybridFetcher.thread_urls urls =
        (urls.enum.filter fun p => !decide (p.1 % 2 = 0)).map Prod.snd := by
      unfold HybridFetcher.thread_urls
      congr 1
      apply List.filter_congr
      intro p _
      rw [← decide_not, decide_eq_decide]
    rw [hco]
    unfold HybridFetcher.async_urls
    rw [← List.map_append]
    have hperm := List.filter_append_perm (fun p : Nat × String => decide (p.1 % 2 = 0)) urls.enum
    have := hperm.map Prod.snd
    rwa [List.enum_map_snd] at this
  · intro urls i h
    have h2 : i < urls.enum.length := by simpa using h
    have hmem : (i, urls[i]) ∈ urls.enum := by
      have hg := List.getElem_enum urls i h2
      exact hg ▸ List.getElem_mem h2
    constructor
    · intro hpar
      exact List.mem_map.mpr ⟨(i, urls[i]),
        List.mem_filter.mpr ⟨hmem, by simpa using hpar⟩, rfl⟩
    · intro hpar
      exact List.mem_map.mpr ⟨(i, urls[i]),
        List.mem_filter.mpr ⟨hmem, by simpa using hpar⟩, rfl⟩

/-- Witness for C8 on files sized 9999 and 10000 and two URLs. -/
theorem C8_hybrid_routing_witness :
    ((⟨"small.txt", 9999⟩ : HybridReader.FileEntry).st_size < 10000) ∧
    (10000 ≤ (⟨"big.txt", 10000⟩ : HybridReader.FileEntry).st_size) ∧
    ("u0" ∈ HybridFetcher.async_urls ["u0", "u1"]) ∧
    ("u1" ∈ HybridFetcher.thread_urls ["u0", "u1"]) :=
  ⟨C8_hybrid_routing.2.1 [⟨"small.txt", 9999⟩, ⟨"big.txt", 10000⟩] _ (by decide),
   C8_hybrid_routing.2.2.1 [⟨"small.txt", 9999⟩, ⟨"big.txt", 10000⟩] _ (by decide),
   (C8_hybrid_routing.2.2.2.2.2.2 ["u0", "u1"] 0 (by decide)).1 (by decide),
   (C8_hybrid_routing.2.2.2.2.2.2 ["u0", "u1"] 1 (by decide)).2 (by decide)⟩

/-- C10: the recency view re-truncates every stored preview at 200
characters: each returned entry's preview is the first 200 characters of
some stored result's payload followed by `"..."` when that payload
exceeds 200 characters, and the stored payload unchanged otherwise —
in both aggregators. -/
theorem C10_recent_preview_retruncation :
    (∀ r : AsyncFileReader.FileResult,
       (AsyncFileReader.recent_entry r).content_preview =
         if 200 < r.content.length then r.content.take 200 ++ "..." else r.content) ∧
    (∀ (stack : List AsyncFileReader.FileResult) (count : Nat)
       (e : AsyncFileReader.RecentEntry),
       e ∈ AsyncFileReader.get_recent_results stack count →
       ∃ r, r ∈ stack ∧ e.content_preview =
         (if 200 < r.content.length then r.content.take 200 ++ "..." else r.content)) ∧
    (∀ r : AsyncUrlFetcher.UrlResult,
       (AsyncUrlFetcher.recent_entry r).content_preview =
         if 200 < r.content_preview.length then r.content_preview.take 200 ++ "..."
         else r.content_preview) ∧
    (∀ (stack : List AsyncUrlFetcher.UrlResult) (count : Nat)
       (e : AsyncUrlFetcher.RecentEntry),
       e ∈ AsyncUrlFetcher.get_recent_results stack count →
       ∃ r, r ∈ stack ∧ e.content_preview =
         (if 200 < r.content_preview.length then r.content_preview.take 200 ++ "..."
          else r.content_preview)) := by
  refine ⟨fun r => rfl, ?_, fun r => rfl, ?_⟩
  · intro stack count e he
    simp only [AsyncFileReader.get_recent_results] at he
    obtain ⟨r, hr, rfl⟩ := List.mem_map.mp he
    rw [List.mem_reverse] at hr
    refine ⟨r, ?_, rfl⟩
    by_cases hlen : stack.length ≥ count
    · rw [if_pos hlen] at hr
      unfold py_slice_last at hr
      split at hr
      · exact hr
      · exact List.mem_of_mem_drop hr
    · rw [if_neg hlen] at hr
      exact hr
  · intro stack count e he
    simp only [AsyncUrlFetcher.get_recent_results] at he
    obtain ⟨r, hr, rfl⟩ := List.mem_map.mp he
    rw [List.mem_reverse] at hr
    refine ⟨r, ?_, rfl⟩
    by_cases hlen : stack.length ≥ count
    · rw [if_pos hlen] at hr
      unfold py_slice_last at hr
      split at hr
      · exact hr
      · exact List.mem_of_mem_drop hr
    · rw [if_neg hlen] at hr
      exact hr

/-- Witness for C10 on a singleton log. -/
theorem C10_recent_preview_retruncation_witness :
    ∃ r, r ∈ [sampleResult1] ∧
      (AsyncFileReader.recent_entry sampleResult1).content_preview =
        (if 200 < r.content.length then r.content.take 200 ++ "..." else r.content) :=
  C10_recent_preview_retruncation.2.1 [sampleResult1] 1
    (AsyncFileReader.recent_entry sampleResult1) (by decide)

/-- C9: under the admission gate (the cooperative strategy's semaphore,
or the thread pool's worker bound), every state reachable during a batch
has at most `cap` work functions in flight. -/
theorem C9_admission_bound :
    ∀ cap n s, AdmissionGate.Reachable cap n s → s.running ≤ cap := by
  intro cap n s h
  induction h with
  | init => exact Nat.zero_le _
  | next hr hstep ih =>
    cases hstep with
    | acquire hp hlt => exact hlt
    | finish hpos => exact le_trans (Nat.sub_le _ _) ih

/-- Witness for C9: after admitting one of three items under cap 2, the
in-flight count (1) respects the bound. -/
theorem C9_admission_bound_witness :
    (⟨2, 1, 0⟩ : AdmissionGate.GateState).running ≤ 2 :=
  C9_admission_bound 2 3 ⟨2, 1, 0⟩
    (AdmissionGate.Reachable.next AdmissionGate.Reachable.init
      (AdmissionGate.Step.acquire ⟨3, 0, 0⟩ (by decide) (by decide)))
